import Mathlib

/-!
Formal model of the playback orchestration core of the phs-video-player
repository (`src/phs_video_player/`): playlist building (`config.py`),
the playback engine, metadata cache and preview sampler (`video_player.py`),
and the status/playlist projections shared with `websocket.py`.

Python values are embedded as follows: machine integers as `Int`,
strings as `String` (with character-level helpers for the `os.path` and
`str` operations the source uses), dictionaries keyed by path as
association lists, and the underlying VLC player as an explicit state
record plus a trace of the commands issued to it.  Fallible operations
(`os.remove`) are modelled with `Except`.
-/

/-- A configured video entry, as produced by `ConfigManager._update_video_list`
(`config.py`): a dict with keys path, name, title, description, duration
(minutes), enabled, order. -/
structure VideoEntry where
  path : String
  name : String
  title : String
  description : String
  duration : Int
  enabled : Bool
  order : Int
deriving DecidableEq

/-- `ConfigManager.get_enabled_videos` (`config.py` lines 138-141):
`[v for v in self.config['videos'] if v['enabled']]` then
`sorted(..., key=lambda x: x['order'])`.  Python's `sorted` is a stable
sort by the key, embedded as `List.mergeSort` with the order comparison.
`WebSocketManager._send_playlist_update` (`websocket.py` lines 73-77)
computes the same filter-then-stable-sort projection. -/
def get_enabled_videos (videos : List VideoEntry) : List VideoEntry :=
  (videos.filter (fun v => v.enabled)).mergeSort (fun a b => decide (a.order ≤ b.order))

/-! ## Playback engine (`VideoPlayer.update_playlist`, `video_player.py` lines 110-135)

The underlying VLC list player is an external native dependency; it is
modelled as an explicit state (the queued media paths and whether the
player is in a playing state) together with the trace of control
commands the engine issues to it.  `play` on a `media_list_player`
starts the first queued item, so a play attempt results in a playing
state only when the queue is non-empty and the underlying player can
actually start (`playStarts`). -/

/-- A control command issued to the underlying VLC list player. -/
inductive PlayerCmd where
  | stop
  | removeItem
  | addMedia (path : String)
  | setLoopMode
  | play
deriving DecidableEq

/-- State of the underlying VLC list player: queued media paths and
whether playback is active (`is_playing`). -/
structure EngineState where
  mediaList : List String
  playing : Bool
deriving DecidableEq

/-- VLC `media_list_player.play`, modelled: playback becomes active iff the
media list is non-empty and the underlying player can start (`playStarts`). -/
def vlcListPlay (playStarts : Bool) (st : EngineState) : EngineState :=
  { st with playing := playStarts && !st.mediaList.isEmpty }

/-- `VideoPlayer.update_playlist` (`video_player.py` lines 110-135): stop,
clear the media list one index at a time, add the enabled videos in order,
set loop mode, and call `play` — unconditionally, with no emptiness check,
no retry logic and no logging.  Returns the resulting player state, the
trace of commands issued, and the log messages emitted (none). -/
def update_playlist (videos : List VideoEntry) (playStarts : Bool) (st : EngineState) :
    EngineState × List PlayerCmd × List String :=
  let stopped : EngineState := { st with playing := false }
  let enabled := get_enabled_videos videos
  let populated : EngineState := { stopped with mediaList := enabled.map (fun v => v.path) }
  let final := vlcListPlay playStarts populated
  (final,
   PlayerCmd.stop :: (st.mediaList.map (fun _ => PlayerCmd.removeItem))
     ++ enabled.map (fun v => PlayerCmd.addMedia v.path)
     ++ [PlayerCmd.setLoopMode, PlayerCmd.play],
   [])

/-- The engine state at process start: empty media list, not playing. -/
def engineInit : EngineState := ⟨[], false⟩

/-- A disabled configured entry, used as a concrete input. -/
def vDis : VideoEntry :=
  ⟨"/videos/closed_exhibit.mp4", "closed_exhibit.mp4", "Closed Exhibit", "", 3, false, 0⟩

/-- An enabled configured entry, used as a concrete input. -/
def vEn : VideoEntry :=
  ⟨"/videos/town_history.mp4", "town_history.mp4", "Town History", "", 12, true, 0⟩

/-! ## Preview sampler (`VideoPlayer._snapshot_loop` / `_start_or_stop_preview`,
`video_player.py` lines 137-170)

Sampler threads are modelled by numeric identifiers: `snapshotThread` is
the reference held in `self.snapshot_thread`, while `liveThreads` is the
set of sampler loops that have been started and whose `while` loop has
not yet observed `preview_enabled = False` and exited.  `os.remove` is
the one fallible primitive (`removeRaises` selects its outcome). -/

/-- State of the preview subsystem. -/
structure PreviewState where
  previewEnabled : Bool
  snapshotThread : Option Nat
  liveThreads : List Nat
  nextThreadId : Nat
  snapshotFileExists : Bool
deriving DecidableEq

/-- Python `self.snapshot_thread and self.snapshot_thread.is_alive()`:
the reference is non-None and the referenced thread is still running. -/
def refAlive (st : PreviewState) : Bool :=
  match st.snapshotThread with
  | some t => st.liveThreads.contains t
  | none => false

/-- `os.remove`, modelled as fallible. -/
def osRemove (raises : Bool) : Except String Unit :=
  if raises then Except.error ("OSError") else Except.ok ()

/-- `VideoPlayer._start_or_stop_preview` (`video_player.py` lines 149-170).
The "Stop existing thread" branch only drops the reference
(`self.snapshot_thread = None`); it does not terminate the running loop.
The start branch spawns a fresh thread whenever preview is enabled and
the reference is None.  The cleanup branch deletes the snapshot file
inside a `try`/`except` that logs and swallows any error, so the
function itself never propagates an exception (result is always `ok`). -/
def startOrStopPreview (removeRaises : Bool) (st : PreviewState) :
    Except String (PreviewState × List String) :=
  let previewOn := st.previewEnabled
  let p1 : PreviewState × List String :=
    if refAlive st then
      ({ st with snapshotThread := none }, [("Stopping existing preview thread")])
    else (st, [])
  let p2 : PreviewState × List String :=
    if previewOn && p1.1.snapshotThread.isNone then
      ({ p1.1 with
          snapshotThread := some p1.1.nextThreadId,
          liveThreads := p1.1.nextThreadId :: p1.1.liveThreads,
          nextThreadId := p1.1.nextThreadId + 1 },
       p1.2 ++ [("Starting preview thread")])
    else p1
  if !previewOn && p2.1.snapshotFileExists then
    match osRemove removeRaises with
    | Except.ok _ => Except.ok ({ p2.1 with snapshotFileExists := false }, p2.2)
    | Except.error _ => Except.ok (p2.1, p2.2 ++ [("Error removing snapshot file")])
  else Except.ok p2

/-- Runs `_start_or_stop_preview` for its state effect (it never actually
returns an error, as proved below; the error arm is dead). -/
def runPreviewStep (removeRaises : Bool) (st : PreviewState) : PreviewState :=
  match startOrStopPreview removeRaises st with
  | Except.ok pr => pr.1
  | Except.error _ => st

/-- One iteration of `VideoPlayer._snapshot_loop` for the live thread `t`:
the loop re-checks `config['preview_enabled']`; while it is true the
thread stays alive and, if the player is playing, overwrites the snapshot
file; once it is false the thread exits (leaves `liveThreads`). -/
def snapshotTick (t : Nat) (playing : Bool) (st : PreviewState) : PreviewState :=
  if st.liveThreads.contains t then
    if st.previewEnabled then
      if playing then { st with snapshotFileExists := true } else st
    else { st with liveThreads := st.liveThreads.erase t }
  else st

/-- Initial preview state with `preview_enabled = true` and no sampler
thread yet (as in `__init__` when the persisted config enables preview). -/
def previewOnInit : PreviewState := ⟨true, none, [], 0, false⟩

/-- A state in which preview has just been switched off in the config
while the sampler thread is still referenced and alive and a snapshot
file exists. -/
def previewOffPending : PreviewState := ⟨false, some 0, [0], 1, true⟩

/-! ## Metadata cache (`VideoPlayer.get_video_metadata`, `video_player.py`
lines 60-108)

The VLC parse step is the external extraction primitive: for a given
path it either yields optional embedded title / description metadata and
a duration in milliseconds, or raises.  The cache dict is an association
list from path to cached metadata. -/

/-- Display metadata as cached per path. -/
structure Metadata where
  title : String
  description : String
  duration : Int
deriving DecidableEq

/-- Outcome of the VLC metadata extraction for one path. -/
inductive ParseOutcome where
  | ok (title : Option String) (descr : Option String) (durationMs : Int)
  | raises
deriving DecidableEq

/-- `str.replace(old, new)` for single-character patterns, on char lists. -/
def replaceChar (old new : Char) : List Char → List Char
  | [] => []
  | c :: cs => (if c = old then new else c) :: replaceChar old new cs

/-- `os.path.basename`: the suffix after the last slash. -/
def basenameChars : List Char → List Char
  | [] => []
  | c :: rest =>
    if c = '/' || rest.contains '/' then basenameChars rest else c :: rest

/-- Index of the last dot that `os.path.splitext` splits at: the greatest
dot position having some non-dot character before it (leading dots of a
basename never start an extension). -/
def splitDotIdx (cs : List Char) : Option Nat :=
  ((List.range cs.length).filter
    (fun i => cs.getD i ' ' == '.' && (List.range i).any (fun j => cs.getD j ' ' != '.'))).getLast?

/-- The stem part of `os.path.splitext` on a basename. -/
def splitextStemChars (cs : List Char) : List Char :=
  match splitDotIdx cs with
  | some i => cs.take i
  | none => cs

/-- `str.title()` on ASCII text: a letter is uppercased when the previous
character is not a letter, lowercased otherwise. -/
def pythonTitleAux : List Char → Bool → List Char
  | [], _ => []
  | c :: cs, prevCased =>
    if c.isAlpha then
      (if prevCased then c.toLower else c.toUpper) :: pythonTitleAux cs true
    else c :: pythonTitleAux cs false

/-- The filename-derived fallback title of `get_video_metadata`:
`os.path.splitext(os.path.basename(path))[0].replace('_',' ').replace('-',' ').title()`. -/
def derivedTitle (path : String) : String :=
  ⟨pythonTitleAux
    (replaceChar '-' ' ' (replaceChar '_' ' ' (splitextStemChars (basenameChars path.data))))
    false⟩

/-- `math.ceil(duration_ms / 60000)` with the division taken exactly. -/
def ceilDiv60000 (ms : Int) : Int := Int.ceil ((ms : ℚ) / 60000)

/-- `VideoPlayer.get_video_metadata` (`video_player.py` lines 60-108):
cache lookup first; on a miss run extraction — on success compute the
ceiling duration in minutes, fall back to the filename-derived title
when the embedded title is missing or empty and to `""` for a missing
description; on any failure build the degraded default metadata.  Either
way the result is cached.  Returns the metadata, the updated cache, and
whether an extraction was performed. -/
def get_video_metadata (extract : String → ParseOutcome)
    (cache : List (String × Metadata)) (path : String) :
    Metadata × List (String × Metadata) × Bool :=
  match cache.lookup path with
  | some m => (m, cache, false)
  | none =>
    match extract path with
    | ParseOutcome.ok t d ms =>
      let title : String :=
        match t with
        | some s => if s = "" then derivedTitle path else s
        | none => derivedTitle path
      let description : String :=
        match d with
        | some s => s
        | none => ""
      let m : Metadata := ⟨title, description, ceilDiv60000 ms⟩
      (m, (path, m) :: cache, true)
    | ParseOutcome.raises =>
      let m : Metadata := ⟨derivedTitle path, "", 0⟩
      (m, (path, m) :: cache, true)

/-! ## Current video and playback status (`VideoPlayer.get_current_video` /
`get_playback_status`, `video_player.py` lines 172-195; the same logic is
duplicated in `websocket.py` lines 49-71) -/

/-- The projection returned for the currently playing video. -/
structure CurrentVideoInfo where
  title : String
  duration : Int
  path : String
deriving DecidableEq

/-- Python `needle in hay` on char lists (substring containment). -/
def containsSub (needle : List Char) : List Char → Bool
  | [] => needle.isEmpty
  | c :: cs => needle.isPrefixOf (c :: cs) || containsSub needle cs

/-- Python `video['path'] in mrl`. -/
def strContains (hay needle : String) : Bool :=
  containsSub needle.data hay.data

/-- The `for video in self.config_manager.config['videos']` loop of
`get_current_video`: first entry whose path is contained in the MRL. -/
def matchLoop (mrl : String) : List VideoEntry → Option CurrentVideoInfo
  | [] => none
  | v :: rest =>
    if strContains mrl v.path then some ⟨v.title, v.duration, v.path⟩
    else matchLoop mrl rest

/-- `VideoPlayer.get_current_video` (`video_player.py` lines 172-187):
None when no media is active; otherwise scan all configured videos (the
full `config['videos']` list) for the first whose path is a substring of
the active media resource locator. -/
def get_current_video (videos : List VideoEntry) (media : Option String) :
    Option CurrentVideoInfo :=
  match media with
  | none => none
  | some mrl => matchLoop mrl videos

/-- The claim's reading of `currentEntry()`, for comparison: resolution
against the Playlist, i.e. the enabled-only ordered projection, rather
than against all configured entries. -/
def get_current_video_claim (videos : List VideoEntry) (media : Option String) :
    Option CurrentVideoInfo :=
  match media with
  | none => none
  | some mrl => matchLoop mrl (get_enabled_videos videos)

/-- The record returned by `get_playback_status`. -/
structure PlaybackStatus where
  playing : Bool
  current_time : Int
  current_video : Option CurrentVideoInfo
deriving DecidableEq

/-- `VideoPlayer.get_playback_status` (`video_player.py` lines 189-195):
`current_time` is `self.player.get_time() // 1000`, Python integer floor
division of the player clock reading (milliseconds; `-1` when idle). -/
def get_playback_status (playing : Bool) (timeMs : Int)
    (videos : List VideoEntry) (media : Option String) : PlaybackStatus :=
  ⟨playing, timeMs.fdiv 1000, get_current_video videos media⟩

/-- A disabled configured entry whose path occurs inside an MRL, used as
a concrete input. -/
def vDisArchive : VideoEntry :=
  ⟨"/videos/archive.mp4", "archive.mp4", "Archive", "", 4, false, 0⟩

/-- An extraction environment in which every path fails to parse. -/
def extractNever : String → ParseOutcome := fun _ => ParseOutcome.raises

/-- An extraction environment yielding no embedded metadata and a
90000 ms duration for every path. -/
def extract90000 : String → ParseOutcome := fun _ => ParseOutcome.ok none none 90000

/-! ## Theorems -/

theorem pairwise_of_mem_rel {α : Type} (r : α → α → Prop) :
    ∀ l : List α, (∀ a, a ∈ l → ∀ b, b ∈ l → r a b) → l.Pairwise r
  | [], _ => List.Pairwise.nil
  | a :: l, h => by
    constructor
    · intro b hb
      exact h a (List.mem_cons_self a l) b (List.mem_cons_of_mem a hb)
    · exact pairwise_of_mem_rel r l (fun x hx y hy =>
        h x (List.mem_cons_of_mem a hx) y (List.mem_cons_of_mem a hy))

theorem orderLe_trans (a b c : VideoEntry) :
    decide (a.order ≤ b.order) → decide (b.order ≤ c.order) →
      decide (a.order ≤ c.order) := by
  simp only [decide_eq_true_eq]
  omega

theorem orderLe_total (a b : VideoEntry) :
    decide (a.order ≤ b.order) || decide (b.order ≤ a.order) := by
  simp only [Bool.or_eq_true, decide_eq_true_eq]
  omega

/-- C1: rebuilding the playlist yields exactly the enabled entries (as a
permutation of the enabled filter of the input), sorted ascending by
`order`, and for every order value the entries carrying it appear in
exactly their relative input order (stability on ties). -/
theorem C1_rebuild_filters_sorts_stably (videos : List VideoEntry) :
    (get_enabled_videos videos).Perm (videos.filter (fun v => v.enabled))
    ∧ (get_enabled_videos videos).Pairwise (fun a b => a.order ≤ b.order)
    ∧ ∀ k : Int,
        (get_enabled_videos videos).filter (fun v => decide (v.order = k))
          = (videos.filter (fun v => v.enabled)).filter (fun v => decide (v.order = k)) := by
  refine ⟨List.mergeSort_perm _ _, ?_, ?_⟩
  · have h := List.sorted_mergeSort orderLe_trans orderLe_total
      (videos.filter (fun v => v.enabled))
    exact h.imp (fun hab => by simpa using hab)
  · intro k
    set l := videos.filter (fun v => v.enabled) with hl
    set p : VideoEntry → Bool := fun v => decide (v.order = k) with hp
    have hpair : (l.filter p).Pairwise (fun a b => decide (a.order ≤ b.order) = true) := by
      apply pairwise_of_mem_rel
      intro a ha b hb
      have ha2 : p a = true := List.of_mem_filter ha
      have hb2 : p b = true := List.of_mem_filter hb
      simp only [hp, decide_eq_true_eq] at ha2 hb2 ⊢
      omega
    have hsub : List.Sublist (l.filter p) (l.mergeSort (fun a b => decide (a.order ≤ b.order))) :=
      List.sublist_mergeSort orderLe_trans orderLe_total hpair (List.filter_sublist l)
    have hsub2 : List.Sublist (l.filter p)
        ((l.mergeSort (fun a b => decide (a.order ≤ b.order))).filter p) := by
      have h3 := hsub.filter p
      rwa [List.filter_filter, (by
        funext a
        exact (Bool.and_self (p a)).symm : p = fun a => p a && p a).symm] at h3
    have hperm : ((l.mergeSort (fun a b => decide (a.order ≤ b.order))).filter p).Perm
        (l.filter p) := (List.mergeSort_perm l _).filter p
    exact (hsub2.eq_of_length hperm.length_eq.symm).symm

theorem count_play_map_removeItem (l : List String) :
    (l.map (fun _ => PlayerCmd.removeItem)).count PlayerCmd.play = 0 := by
  apply List.count_eq_zero.mpr
  simp

theorem count_play_map_addMedia (l : List VideoEntry) :
    (l.map (fun v => PlayerCmd.addMedia v.path)).count PlayerCmd.play = 0 := by
  apply List.count_eq_zero.mpr
  simp

theorem count_play_trace (videos : List VideoEntry) (playStarts : Bool) (st : EngineState) :
    (update_playlist videos playStarts st).2.1.count PlayerCmd.play = 1 := by
  unfold update_playlist
  simp only [List.count_cons, List.count_append, count_play_map_removeItem,
    count_play_map_addMedia]
  decide

/-- C2 counterexample: rebuilding with a configuration containing no
enabled entries still issues a `play` command on the underlying player
(one play, not zero) and emits no warning at all, so the claim that no
play command is issued and that a warning is the only observable effect
is false at this input. -/
theorem C2_counterexample :
    (update_playlist [vDis] true engineInit).2.1.count PlayerCmd.play = 1
    ∧ (update_playlist [vDis] true engineInit).2.2 = [] :=
  ⟨count_play_trace [vDis] true engineInit, rfl⟩

/-- C2 (amended): a rebuild with no enabled entries leaves the engine with
an empty media list and not playing and performs no retry (exactly one
play command is issued, unconditionally), and no warning is logged. -/
theorem C2_empty_playlist (videos : List VideoEntry) (playStarts : Bool) (st : EngineState)
    (h : videos.filter (fun v => v.enabled) = []) :
    (update_playlist videos playStarts st).1.mediaList = []
    ∧ (update_playlist videos playStarts st).1.playing = false
    ∧ (update_playlist videos playStarts st).2.1.count PlayerCmd.play = 1
    ∧ (update_playlist videos playStarts st).2.2 = [] := by
  have he : get_enabled_videos videos = [] := by
    unfold get_enabled_videos
    rw [h]
    exact List.mergeSort_nil
  refine ⟨?_, ?_, count_play_trace videos playStarts st, rfl⟩
  · simp [update_playlist, he, vlcListPlay]
  · simp [update_playlist, he, vlcListPlay]

theorem C2_empty_playlist_witness :
    ([vDis].filter (fun v => v.enabled) = [])
    ∧ ((update_playlist [vDis] true engineInit).1.mediaList = []
        ∧ (update_playlist [vDis] true engineInit).1.playing = false
        ∧ (update_playlist [vDis] true engineInit).2.1.count PlayerCmd.play = 1
        ∧ (update_playlist [vDis] true engineInit).2.2 = []) :=
  ⟨by decide, C2_empty_playlist [vDis] true engineInit (by decide)⟩

/-- C3 counterexample: replacing the playlist with one enabled entry while
the underlying player fails to start results in a non-playing state with
exactly one play command issued — not two, so the claimed single retry of
the play command never happens. -/
theorem C3_counterexample :
    (update_playlist [vEn] false engineInit).1.playing = false
    ∧ (update_playlist [vEn] false engineInit).2.1.count PlayerCmd.play = 1
    ∧ ¬ ((update_playlist [vEn] false engineInit).2.1.count PlayerCmd.play = 2) := by
  have hc := count_play_trace [vEn] false engineInit
  exact ⟨by simp [update_playlist, vlcListPlay], hc, by omega⟩

/-- C3 (amended): for every non-empty playlist replacement in which the
play command does not result in a playing state, the engine issues
exactly one play command in total (no retry) and is left in a
non-playing state, with nothing logged. -/
theorem C3_no_retry (videos : List VideoEntry) (st : EngineState)
    (h : videos.filter (fun v => v.enabled) ≠ []) :
    (update_playlist videos false st).1.playing = false
    ∧ (update_playlist videos false st).2.1.count PlayerCmd.play = 1
    ∧ (update_playlist videos false st).2.2 = [] :=
  ⟨by simp [update_playlist, vlcListPlay], count_play_trace videos false st, rfl⟩

theorem C3_no_retry_witness :
    ([vEn].filter (fun v => v.enabled) ≠ [])
    ∧ ((update_playlist [vEn] false engineInit).1.playing = false
        ∧ (update_playlist [vEn] false engineInit).2.1.count PlayerCmd.play = 1
        ∧ (update_playlist [vEn] false engineInit).2.2 = []) :=
  ⟨by decide, C3_no_retry [vEn] engineInit (by decide)⟩

/-- C4: the code contradicts the at-most-one-sampler invariant (and its own
"Stopping existing preview thread" comment).  Starting from preview enabled
with no thread, the first `_start_or_stop_preview` call spawns a sampler;
a second call while it is running drops the reference and spawns another,
leaving two live sampler loops; a subsequent loop iteration of the first
thread observes `preview_enabled = true` and keeps running, so both stay
alive. -/
theorem C4_second_enable_spawns_second_sampler :
    (runPreviewStep false (runPreviewStep false previewOnInit)).liveThreads.length = 2
    ∧ (snapshotTick 0 true
        (runPreviewStep false (runPreviewStep false previewOnInit))).liveThreads.length = 2 := by
  decide

/-- C5: invoking the preview start/stop handler with preview disabled
deletes the snapshot file before returning (when `os.remove` succeeds):
the operation completes normally and the post-state has no snapshot file,
so a check of the snapshot path immediately afterwards observes it
absent. -/
theorem C5_disable_deletes_snapshot (st : PreviewState) (h : st.previewEnabled = false) :
    ∃ st2 logs, startOrStopPreview false st = Except.ok (st2, logs)
      ∧ st2.snapshotFileExists = false := by
  unfold startOrStopPreview osRemove
  rw [h]
  by_cases hA : refAlive st <;> by_cases hF : st.snapshotFileExists <;>
    simp [hA, hF]

theorem C5_disable_deletes_snapshot_witness :
    (previewOffPending.previewEnabled = false)
    ∧ ∃ st2 logs, startOrStopPreview false previewOffPending = Except.ok (st2, logs)
        ∧ st2.snapshotFileExists = false :=
  ⟨rfl, C5_disable_deletes_snapshot previewOffPending rfl⟩

/-- C10: when deleting the snapshot file fails during a preview-disable
invocation, the operation still completes normally (returns `ok`, no
exception propagates), the failure is logged, and the stale snapshot file
remains on disk. -/
theorem C10_remove_failure_swallowed (st : PreviewState)
    (h1 : st.previewEnabled = false) (h2 : st.snapshotFileExists = true) :
    ∃ st2 logs, startOrStopPreview true st = Except.ok (st2, logs)
      ∧ st2.snapshotFileExists = true
      ∧ ("Error removing snapshot file") ∈ logs := by
  unfold startOrStopPreview osRemove
  rw [h1]
  by_cases hA : refAlive st <;> simp [hA, h2]
  · exact ⟨_, _, ⟨rfl, rfl⟩, rfl, by simp⟩
  · exact ⟨_, _, ⟨rfl, rfl⟩, h2, by simp⟩

theorem C10_remove_failure_swallowed_witness :
    (previewOffPending.previewEnabled = false ∧ previewOffPending.snapshotFileExists = true)
    ∧ ∃ st2 logs, startOrStopPreview true previewOffPending = Except.ok (st2, logs)
        ∧ st2.snapshotFileExists = true
        ∧ ("Error removing snapshot file") ∈ logs :=
  ⟨⟨rfl, rfl⟩, C10_remove_failure_swallowed previewOffPending rfl rfl⟩

/-- C6: metadata resolution is memoized.  From any cache in which `path`
is not yet present, a failing extraction yields the degraded defaults
(filename-derived title, empty description, zero duration), and a second
resolution of the same path — whatever the first call's outcome was —
performs no extraction, leaves the cache unchanged, and returns exactly
the value produced (and cached) by the first call. -/
theorem C6_metadata_cached_once (extract : String → ParseOutcome)
    (cache : List (String × Metadata)) (path : String)
    (h1 : cache.lookup path = none) :
    (extract path = ParseOutcome.raises →
      (get_video_metadata extract cache path).1 = ⟨derivedTitle path, "", 0⟩)
    ∧ (get_video_metadata extract (get_video_metadata extract cache path).2.1 path).1
        = (get_video_metadata extract cache path).1
    ∧ (get_video_metadata extract (get_video_metadata extract cache path).2.1 path).2.1
        = (get_video_metadata extract cache path).2.1
    ∧ (get_video_metadata extract (get_video_metadata extract cache path).2.1 path).2.2
        = false := by
  cases he : extract path with
  | ok t d ms =>
    refine ⟨fun hr => ?_, ?_, ?_, ?_⟩
    · cases hr
    · simp [get_video_metadata, h1, he]
    · simp [get_video_metadata, h1, he]
    · simp [get_video_metadata, h1, he]
  | raises =>
    refine ⟨fun _ => ?_, ?_, ?_, ?_⟩ <;>
      simp [get_video_metadata, h1, he]

theorem C6_metadata_cached_once_witness :
    (List.lookup ("/videos/grand_opening-1962.mp4") ([] : List (String × Metadata)) = none)
    ∧ ((extractNever ("/videos/grand_opening-1962.mp4") = ParseOutcome.raises →
        (get_video_metadata extractNever [] ("/videos/grand_opening-1962.mp4")).1
          = ⟨derivedTitle ("/videos/grand_opening-1962.mp4"), "", 0⟩)
      ∧ (get_video_metadata extractNever
            (get_video_metadata extractNever [] ("/videos/grand_opening-1962.mp4")).2.1
            ("/videos/grand_opening-1962.mp4")).1
          = (get_video_metadata extractNever [] ("/videos/grand_opening-1962.mp4")).1
      ∧ (get_video_metadata extractNever
            (get_video_metadata extractNever [] ("/videos/grand_opening-1962.mp4")).2.1
            ("/videos/grand_opening-1962.mp4")).2.1
          = (get_video_metadata extractNever [] ("/videos/grand_opening-1962.mp4")).2.1
      ∧ (get_video_metadata extractNever
            (get_video_metadata extractNever [] ("/videos/grand_opening-1962.mp4")).2.1
            ("/videos/grand_opening-1962.mp4")).2.2
          = false) :=
  ⟨rfl, C6_metadata_cached_once extractNever [] ("/videos/grand_opening-1962.mp4") rfl⟩

theorem matchLoop_eq_find (mrl : String) :
    ∀ videos : List VideoEntry,
      matchLoop mrl videos
        = (videos.find? (fun v => strContains mrl v.path)).map
            (fun v => (⟨v.title, v.duration, v.path⟩ : CurrentVideoInfo))
  | [] => rfl
  | v :: rest => by
    by_cases hm : strContains mrl v.path
    · simp [matchLoop, hm, List.find?_cons_of_pos]
    · rw [matchLoop, if_neg (by simpa using hm), List.find?_cons_of_neg _ (by simpa using hm)]
      exact matchLoop_eq_find mrl rest

/-- C7 counterexample: with a single configured but disabled entry whose
path occurs inside the active MRL, `get_current_video` returns that
disabled entry, whereas resolution against the Playlist (the enabled-only
ordered projection, as the claim states) would return none — the code
matches against all configured videos, not the playlist. -/
theorem C7_counterexample :
    get_current_video [vDisArchive] (some ("file:///videos/archive.mp4"))
        = some ⟨("Archive"), 4, ("/videos/archive.mp4")⟩
    ∧ get_current_video_claim [vDisArchive] (some ("file:///videos/archive.mp4")) = none := by
  constructor
  · decide
  · simp [get_current_video_claim, get_enabled_videos, vDisArchive, matchLoop]

/-- C7 (amended): `get_current_video` returns none when no media resource
is active, and otherwise returns the title, duration and path of the
first entry of the full configured video list (in configuration order,
enabled or not) whose path is a substring of the active resource
identifier, or none when no entry matches. -/
theorem C7_current_video_resolution (videos : List VideoEntry) (mrl : String) :
    get_current_video videos none = none
    ∧ get_current_video videos (some mrl)
        = (videos.find? (fun v => strContains mrl v.path)).map
            (fun v => (⟨v.title, v.duration, v.path⟩ : CurrentVideoInfo)) :=
  ⟨rfl, matchLoop_eq_find mrl videos⟩

theorem fdiv_1000_eq_floor (t : Int) : t.fdiv 1000 = ⌊(t : ℚ) / 1000⌋ := by
  rw [Int.fdiv_eq_ediv _ (by decide)]
  exact_mod_cast (Rat.floor_intCast_div_natCast t 1000).symm

/-- C8 counterexample: at the player clock's idle sentinel reading of
`-1` ms, `get_playback_status` reports `current_time = -1` (Python `//`
is floor division), while truncation of `-1/1000` toward zero — what the
claim states for the sentinel and negative readings — yields `0`. -/
theorem C8_counterexample :
    (get_playback_status false (-1) [] none).current_time = -1
    ∧ Int.tdiv (-1) 1000 = 0 := by
  decide

/-- C8 (amended): for every clock reading `t` in milliseconds,
`current_time` is the floor of `t/1000` (Python floor division), which
coincides with truncation toward zero for nonnegative readings but not at
the negative idle sentinel. -/
theorem C8_elapsed_floor_division (playing : Bool) (timeMs : Int)
    (videos : List VideoEntry) (media : Option String) :
    (get_playback_status playing timeMs videos media).current_time = ⌊(timeMs : ℚ) / 1000⌋
    ∧ (0 ≤ timeMs →
        (get_playback_status playing timeMs videos media).current_time
          = Int.tdiv timeMs 1000) := by
  constructor
  · exact fdiv_1000_eq_floor timeMs
  · intro hnn
    show timeMs.fdiv 1000 = Int.tdiv timeMs 1000
    rw [Int.fdiv_eq_ediv _ (by decide), Int.tdiv_eq_ediv hnn (by decide)]

theorem C8_elapsed_floor_division_witness :
    ((get_playback_status true 5500 [] none).current_time = ⌊((5500 : Int) : ℚ) / 1000⌋
      ∧ (0 ≤ (5500 : Int) →
          (get_playback_status true 5500 [] none).current_time = Int.tdiv 5500 1000)) :=
  C8_elapsed_floor_division true 5500 [] none

theorem ceilDiv60000_eq_fdiv (d : Int) : ceilDiv60000 d = (d + 59999).fdiv 60000 := by
  have hfloor : ⌊((-d : Int) : ℚ) / ((60000 : Nat) : ℚ)⌋ = (-d) / ((60000 : Nat) : Int) :=
    Rat.floor_intCast_div_natCast (-d) 60000
  have hceil : ⌈(d : ℚ) / 60000⌉ = -((-d) / ((60000 : Nat) : Int)) := by
    rw [show ((d : ℚ) / 60000) = -(((-d : Int) : ℚ) / ((60000 : Nat) : ℚ)) by push_cast; ring]
    rw [Int.ceil_neg, hfloor]
  unfold ceilDiv60000
  rw [hceil, Int.fdiv_eq_ediv _ (by decide)]
  omega

/-- C9: when extraction succeeds with a duration of `d` milliseconds, the
resolved duration in minutes is the ceiling of `d / 60000` (equivalently
`(d + 59999)` floor-divided by `60000`); in particular a media item of
exactly 90000 ms resolves to 2 minutes. -/
theorem C9_duration_ceiling (extract : String → ParseOutcome)
    (cache : List (String × Metadata)) (path : String)
    (t d : Option String) (ms : Int)
    (h1 : cache.lookup path = none)
    (h2 : extract path = ParseOutcome.ok t d ms) :
    (get_video_metadata extract cache path).1.duration = Int.ceil ((ms : ℚ) / 60000)
    ∧ (get_video_metadata extract cache path).1.duration = (ms + 59999).fdiv 60000
    ∧ (ms = 90000 → (get_video_metadata extract cache path).1.duration = 2) := by
  have hdur : (get_video_metadata extract cache path).1.duration = ceilDiv60000 ms := by
    simp [get_video_metadata, h1, h2]
  refine ⟨hdur, ?_, ?_⟩
  · rw [hdur, ceilDiv60000_eq_fdiv]
  · intro h90
    rw [hdur, ceilDiv60000_eq_fdiv, h90]
    decide

theorem C9_duration_ceiling_witness :
    (List.lookup ("/videos/waterfront_festival.mp4") ([] : List (String × Metadata)) = none
      ∧ extract90000 ("/videos/waterfront_festival.mp4") = ParseOutcome.ok none none 90000)
    ∧ ((get_video_metadata extract90000 [] ("/videos/waterfront_festival.mp4")).1.duration
          = Int.ceil (((90000 : Int) : ℚ) / 60000)
      ∧ (get_video_metadata extract90000 [] ("/videos/waterfront_festival.mp4")).1.duration
          = ((90000 : Int) + 59999).fdiv 60000
      ∧ ((90000 : Int) = 90000 →
          (get_video_metadata extract90000 [] ("/videos/waterfront_festival.mp4")).1.duration
            = 2)) :=
  ⟨⟨rfl, rfl⟩,
    C9_duration_ceiling extract90000 [] ("/videos/waterfront_festival.mp4") none none 90000
      rfl rfl⟩
